import Mathlib

/-!
# Verification of the SynapSense modality I/O layer

Shallow embedding of the extension-resolution dispatch system
(`src/configs/modality_config.py`, `src/modality_io/`) and the LiDAR
point-cloud processing pipeline (`src/modality_toolkit/lidar_utils.py`).

Numeric cell values are modelled as rationals; file contents of the
third-party binary formats are modelled as the parse results their
libraries hand back to the repository code (a list of 3-d points for
open3d / laspy, a flat float stream for `.bin`), so that everything the
repository itself computes is embedded faithfully and executable.
-/

set_option autoImplicit false

namespace SynapSense

/-! ## Path and extension utilities (src/modality_io/utils.py) -/

/-- ASCII lowercasing of a string, modelling Python `str.lower` on the
ASCII extension strings used throughout the config. -/
def strLower (s : String) : String := String.mk (s.data.map Char.toLower)

/-- Split a character list at every `'/'`. -/
def splitSlash : List Char → List Char → List (List Char)
  | [], acc => [acc.reverse]
  | c :: rest, acc =>
    if c = '/' then acc.reverse :: splitSlash rest []
    else splitSlash rest (c :: acc)

/-- Final path component, modelling `pathlib.PurePath.name` for POSIX
paths: the last slash-separated segment, with pathlib's normalization of
empty segments (repeated or trailing separators). -/
def pathName (p : String) : String :=
  String.mk (((splitSlash p.data []).filter (fun seg => seg ≠ [])).getLastD [])

/-- `pathlib.PurePath.suffix`: the substring of the final component from its
last dot, empty when the last dot is the first or the last character. -/
def pathSuffix (p : String) : String :=
  let cs := (pathName p).toList
  let n := cs.length
  let rev := cs.reverse.indexOf '.'
  if rev < n then
    let i := n - 1 - rev
    if 0 < i ∧ i < n - 1 then String.mk (cs.drop i) else ""
  else ""

/-- `get_file_extension` from src/modality_io/utils.py:
`Path(file_path).suffix.lower()`. -/
def get_file_extension (p : String) : String := strLower (pathSuffix p)

/-- `validate_extension` from src/modality_io/utils.py: membership of the
lower-cased suffix in the lower-cased supported list. -/
def validate_extension (fp : String) (supported : List String) : Bool :=
  (supported.map strLower).contains (get_file_extension fp)

/-- `BaseIO.validate_extension` from src/modality_io/base_io.py: takes the
raw suffix, rejects the empty suffix, otherwise lower-cased membership. -/
def baseValidate_extension (fileExt : String) (supported : List String) : Bool :=
  if fileExt = "" then false
  else (supported.map strLower).contains (strLower fileExt)

/-! ## The extension table (src/configs/modality_config.py) -/

def dvsReadExts : List String := [".aedat4", ".txt", ".csv"]
def dvsWriteExts : List String := [".aedat4", ".csv"]
def lidarReadExts : List String := [".pcd", ".ply", ".las", ".laz", ".bin"]
def lidarWriteExts : List String := [".pcd", ".ply", ".las", ".laz", ".bin"]
def imuReadExts : List String := [".csv", ".txt"]
def imuWriteExts : List String := [".csv"]
/-- The rgb read list as written in the source: the third entry is the
bare string without a leading dot. -/
def rgbReadExts : List String := [".png", ".jpg", "jpeg", ".bmp"]
def rgbWriteExts : List String := [".png", ".jpg"]

/-- Modelled from the spec: the rgb row of the compatibility table in
section 6 lists read extensions `.png, .jpg, .jpeg, .bmp`. -/
def SPEC_RGB_READ_EXTS : List String := [".png", ".jpg", ".jpeg", ".bmp"]

inductive Op where
  | read
  | write
deriving DecidableEq, Repr

/-- `SUPPORTED_EXTENSIONS`, in the source dictionary's insertion order. -/
def SUPPORTED_EXTENSIONS : List (String × (List String × List String)) :=
  [("dvs", (dvsReadExts, dvsWriteExts)),
   ("lidar", (lidarReadExts, lidarWriteExts)),
   ("imu", (imuReadExts, imuWriteExts)),
   ("rgb", (rgbReadExts, rgbWriteExts))]

/-- `ops[operation]` lookup on one table entry. -/
def opsGet (ops : List String × List String) : Op → List String
  | .read => ops.1
  | .write => ops.2

/-- `resolve_modality_from_extension` from src/modality_io/utils.py:
first-match scan over the table in dictionary order against the
lower-cased extension lists. -/
def resolve_modality_from_extension (fp : String) (op : Op) : Option String :=
  let ext := get_file_extension fp
  (SUPPORTED_EXTENSIONS.find? fun me => ((opsGet me.2 op).map strLower).contains ext).map (·.1)

/-! ## The codec registry (src/modality_io/base_io.py) -/

inductive CodecCls where
  | dvsCodec
  | lidarCodec
  | imuCodec
  | rgbImageCodec
deriving DecidableEq, Repr

structure IORegistryState where
  readers : List (String × CodecCls)
  writers : List (String × CodecCls)
deriving DecidableEq, Repr

/-- `IORegistry.register_reader`: dictionary assignment, last write wins. -/
def register_reader (st : IORegistryState) (m : String) (c : CodecCls) : IORegistryState :=
  { st with readers := (m, c) :: st.readers.filter (fun e => e.1 ≠ m) }

/-- `IORegistry.register_writer`: dictionary assignment, last write wins. -/
def register_writer (st : IORegistryState) (m : String) (c : CodecCls) : IORegistryState :=
  { st with writers := (m, c) :: st.writers.filter (fun e => e.1 ≠ m) }

/-- `IORegistry.get_reader`: `dict.get`, absent key gives `none`. -/
def get_reader (st : IORegistryState) (m : String) : Option CodecCls :=
  (st.readers.find? (fun e => e.1 = m)).map (·.2)

/-- `IORegistry.get_writer`: `dict.get`, absent key gives `none`. -/
def get_writer (st : IORegistryState) (m : String) : Option CodecCls :=
  (st.writers.find? (fun e => e.1 = m)).map (·.2)

def emptyRegistry : IORegistryState := ⟨[], []⟩

/-- Registry state once the facade's import loop has imported every codec
module (pkgutil order: dvs_io, imu_io, lidar_io, rgb_io). dvs_io, lidar_io
and rgb_io each end with module-level `register_reader`/`register_writer`
calls; imu_io performs no module-level registration. -/
def moduleInitRegistry : IORegistryState :=
  let r1 := register_writer (register_reader emptyRegistry "dvs" .dvsCodec) "dvs" .dvsCodec
  let r2 := register_writer (register_reader r1 "lidar" .lidarCodec) "lidar" .lidarCodec
  register_writer (register_reader r2 "rgb" .rgbImageCodec) "rgb" .rgbImageCodec

/-- The registration side effect of the imu codec constructor
(src/modality_io/imu_io.py lines 23-24): it runs on every construction of
an imu codec instance, not at module import time. -/
def imuInitRegistration (st : IORegistryState) : IORegistryState :=
  register_writer (register_reader st "imu" .imuCodec) "imu" .imuCodec

/-! ## The facade dispatch (src/modality_io/facade.py) -/

inductive FacadeFailure where
  | unsupportedFormat (path : String)
  | noCodecRegistered (modality : String)
deriving DecidableEq, Repr

/-- The facade read method up to the point where the resolved codec's own
`read` is invoked: an `.ok` value is the codec class that would be
constructed and asked to decode, an `.error` value is raised before any
format-specific decode is attempted. -/
def ModalityFacade.readDispatch (st : IORegistryState) (fp : String) :
    Except FacadeFailure CodecCls :=
  match resolve_modality_from_extension fp .read with
  | none => .error (.unsupportedFormat fp)
  | some m =>
    match get_reader st m with
    | none => .error (.noCodecRegistered m)
    | some c => .ok c

/-! ## The data bundle and delimited-text tables -/

abbrev Row := List ℚ

/-- The DataBundle contract: the dictionary every reader returns
(`data`, `timestamps`, `columns`), with `none` modelling Python `None`. -/
structure DataBundle where
  data : Option (List Row)
  timestamps : Option (List ℚ)
  columns : Option (List String)
deriving DecidableEq, Repr

/-- A delimited-text table as pandas hands it to the repository code:
a header of column labels and numeric body rows. -/
structure Df where
  cols : List String
  rows : List Row
deriving DecidableEq, Repr

/-- Column selection `df[names]` by exact label, failing like pandas on a
label absent from the header. Cells are addressed by the label's first
index in the header. -/
def dfSelect (d : Df) (names : List String) : Except String (List Row) :=
  if names.all (fun n => d.cols.contains n) then
    .ok (d.rows.map (fun r => names.map (fun n => r.getD (d.cols.indexOf n) 0)))
  else .error "KeyError"

/-- Single-column extraction `df[name]` by exact label. -/
def dfColumn (d : Df) (name : String) : Except String (List ℚ) :=
  if d.cols.contains name then
    .ok (d.rows.map (fun r => r.getD (d.cols.indexOf name) 0))
  else .error "KeyError"

/-! ## The DVS codec (src/modality_io/dvs_io.py) -/

/-- Content of a DVS source file as its parser delivers it to the codec:
a delimited-text table for `.csv`/`.txt`, or the list of per-packet event
arrays (rows `t, x, y, p`) that the aedat decoder yields for `.aedat4`. -/
inductive DvsContent where
  | table (d : Df)
  | aedat (packets : List (List Row))
deriving DecidableEq, Repr

/-- The DVS read method: validate the extension, then branch. Delimited text
requires `t, x, y, p` among the lower-cased header labels, then selects
exactly those labels; `.aedat4` concatenates all event packets and fails
on an empty packet list. -/
def DVSCodec.read (fp : String) (content : DvsContent) : Except String DataBundle :=
  let ext := get_file_extension fp
  if ¬ validate_extension fp dvsReadExts then
    .error "Unsupported DVS file type"
  else if ext = ".csv" ∨ ext = ".txt" then
    match content with
    | .table d =>
      if ["t", "x", "y", "p"].all (fun n => (d.cols.map strLower).contains n) then
        match dfSelect d ["t", "x", "y", "p"], dfColumn d "t" with
        | .ok events, .ok ts =>
          .ok ⟨some events, some ts, some ["t", "x", "y", "p"]⟩
        | .error e, _ => .error e
        | _, .error e => .error e
      else .error "Missing DVS columns: t, x, y, p"
    | .aedat _ => .error "Failed reading DVS file"
  else if ext = ".aedat4" then
    match content with
    | .aedat packets =>
      if packets = [] then .error "No events found in .aedat4 file."
      else
        let events := packets.flatten
        .ok ⟨some events, some (events.map (fun r => r.getD 0 0)),
             some ["t", "x", "y", "p"]⟩
    | .table _ => .error "Failed reading DVS file"
  else .error "Unsupported DVS file extension"

/-- A bundle as passed to a writer: `data_bundle.get('data')` and
`data_bundle.get('columns', default)`; `columns = none` models an absent
key. -/
structure WriteBundle where
  data : Option (List Row)
  columns : Option (List String)
deriving DecidableEq, Repr

/-- The DVS write method restricted to the delimited-text branch it takes for
`.csv` (the only text extension in its write list): validates the
extension and the `(N, 4)` shape, then emits the dataframe
`DataFrame(data, columns)` as a table; the pandas constructor fails when
the label count disagrees with the column count. -/
def DVSCodec.write (bundle : WriteBundle) (fp : String) : Except String DvsContent :=
  let ext := get_file_extension fp
  if ¬ validate_extension fp dvsWriteExts then
    .error "Unsupported DVS file type"
  else
    match bundle.data with
    | none => .error "DVS data must be a NumPy array of shape (N, 4)."
    | some rows =>
      if ¬ rows.all (fun r => r.length = 4) then
        .error "DVS data must be a NumPy array of shape (N, 4)."
      else
        let cols := bundle.columns.getD ["t", "x", "y", "p"]
        if ext = ".csv" ∨ ext = ".txt" then
          if cols.length = 4 then .ok (.table ⟨cols, rows⟩)
          else .error "Failed writing DVS file"
        else if ext = ".aedat4" then .ok (.aedat [rows])
        else .error "Unsupported DVS output extension"

/-! ## The IMU codec (src/modality_io/imu_io.py) -/

def gyroFields : List String := ["gyro_x", "gyro_y", "gyro_z"]
def accelFields : List String := ["accel_x", "accel_y", "accel_z", "x", "y", "z"]
def timeFields : List String := ["timestamp", "time", "datetime"]

/-- The imu read method on a parsed delimited-text table: heuristic column
discovery by case-insensitive name matching, failing when no sensor field
is found; returns the `(data, columns, timestamps)` triple the instance
stores (its `read` returns the bare data array). -/
def IMUCodec.read (d : Df) : Except String (List Row × List String × Option (List ℚ)) :=
  let gyroCandidates := d.cols.filter (fun c => gyroFields.contains (strLower c))
  let accelCandidates := d.cols.filter (fun c => accelFields.contains (strLower c))
  let timeCandidates := d.cols.filter (fun c => timeFields.contains (strLower c))
  let sensorFields := gyroCandidates ++ accelCandidates
  if sensorFields = [] then
    .error "No valid IMU sensor data found in file."
  else
    match timeCandidates with
    | tcol :: _ =>
      match dfColumn d tcol, dfSelect d sensorFields with
      | .ok ts, .ok sensor =>
        .ok ((ts.zip sensor).map (fun p => p.1 :: p.2), tcol :: sensorFields, some ts)
      | .error e, _ => .error e
      | _, .error e => .error e
    | [] =>
      match dfSelect d sensorFields with
      | .ok sensor => .ok (sensor, sensorFields, none)
      | .error e => .error e

/-- The imu write method: fall back to instance data, validate the array and the
`.csv` extension, generate `col_i` labels when neither the call nor the
instance supplies any, and emit `DataFrame(data, columns).to_csv` as a
table; the pandas constructor fails when the label count disagrees. -/
def IMUCodec.write (data : Option (List Row)) (selfData : Option (List Row))
    (fp : String) (columns : Option (List String))
    (selfColumns : Option (List String)) : Except String Df :=
  match data.orElse (fun _ => selfData) with
  | none => .error "No IMU data loaded to write."
  | some rows =>
    if ¬ baseValidate_extension (pathSuffix fp) imuWriteExts then
      .error "Unsupported file extension for IMUCodec"
    else
      let ncols := (rows.headD []).length
      let cols := (columns.orElse (fun _ => selfColumns)).getD
        ((List.range ncols).map (fun i => s!"col_{i}"))
      if cols.length = ncols then .ok ⟨cols, rows⟩
      else .error "Failed to write IMU file"

/-! ## The LiDAR codec (src/modality_io/lidar_io.py) -/

abbrev Point3 := ℚ × ℚ × ℚ

/-- Content of a LiDAR source file as its parsing library delivers it:
open3d and laspy hand the repository a list of 3-d points, the `.bin`
branch reads a flat float32 stream. -/
inductive LidarContent where
  | cloud (pts : List Point3)
  | raw (floats : List ℚ)
deriving DecidableEq, Repr

/-- Split a flat float stream into rows of four, modelling
`np.fromfile(...).reshape(-1, 4)`. -/
def chunk4 : List ℚ → List Row
  | a :: b :: c :: d :: rest => [a, b, c, d] :: chunk4 rest
  | _ => []

/-- The lidar read method: validate the extension, branch by format, and return
the bundle with `timestamps = None` and the fixed generic labels
`['X', 'Y', 'Z']`; `.bin` reshaping fails when the float count is not a
multiple of four. -/
def LidarCodec.read (fp : String) (content : LidarContent) : Except String DataBundle :=
  let ext := get_file_extension fp
  if ¬ validate_extension fp lidarReadExts then
    .error "Unsupported file extension for LiDAR"
  else if ext = ".pcd" ∨ ext = ".ply" ∨ ext = ".las" ∨ ext = ".laz" then
    match content with
    | .cloud pts =>
      .ok ⟨some (pts.map (fun p => [p.1, p.2.1, p.2.2])), none, some ["X", "Y", "Z"]⟩
    | .raw _ => .error "Failed to read LiDAR file"
  else if ext = ".bin" then
    match content with
    | .raw fs =>
      if fs.length % 4 = 0 then .ok ⟨some (chunk4 fs), none, some ["X", "Y", "Z"]⟩
      else .error "Failed to read LiDAR file"
    | .cloud _ => .error "Failed to read LiDAR file"
  else .error "Unsupported file format"

/-! ## The LiDAR processing pipeline (src/modality_toolkit/lidar_utils.py)

Each stage wraps an open3d geometric primitive. The primitive itself is
third-party code the stage treats as a black box, so it enters the
embedding as an explicit function argument; everything the repository
wraps around it (column slicing, the falsy-parameter default
substitution, placeholder reattachment) is embedded from the source. -/

/-- `x or default` on a Python float argument: `None` and `0.0` are falsy
and select the default. -/
def orDefaultQ (x : Option ℚ) (d : ℚ) : ℚ :=
  match x with
  | none => d
  | some v => if v = 0 then d else v

/-- `x or default` on a Python int argument: `None` and `0` are falsy and
select the default. -/
def orDefaultN (x : Option Nat) (d : Nat) : Nat :=
  match x with
  | none => d
  | some v => if v = 0 then d else v

/-- `point_cloud.shape[1]` of a rectangular array modelled as its rows. -/
def numCols (pc : List Row) : Nat := (pc.headD []).length

/-- `to_open3d_point_cloud`: keep the first three columns as 3-d points. -/
def to_open3d_point_cloud (pc : List Row) : List Point3 :=
  pc.map (fun r => (r.getD 0 0, r.getD 1 0, r.getD 2 0))

/-- `from_open3d_point_cloud`: back to rows, reattaching a zero-filled
fourth column exactly when the original width was 4. -/
def from_open3d_point_cloud (pts : List Point3) (originalDim : Nat) : List Row :=
  if originalDim = 4 then pts.map (fun p => [p.1, p.2.1, p.2.2, 0])
  else pts.map (fun p => [p.1, p.2.1, p.2.2])

/-- `voxel_downsample`, with `op` standing for
`pcd.voxel_down_sample(voxel_size)`. -/
def voxel_downsample (op : ℚ → List Point3 → List Point3)
    (pc : List Row) (voxelSize : Option ℚ) : List Row :=
  let vs := orDefaultQ voxelSize (1 / 10)
  from_open3d_point_cloud (op vs (to_open3d_point_cloud pc)) (numCols pc)

/-- `uniform_downsample`, with `op` standing for
`pcd.uniform_down_sample(every_k_points)`. -/
def uniform_downsample (op : Nat → List Point3 → List Point3)
    (pc : List Row) (everyKPoints : Option Nat) : List Row :=
  let k := orDefaultN everyKPoints 5
  from_open3d_point_cloud (op k (to_open3d_point_cloud pc)) (numCols pc)

/-- `pcd.select_by_index(ind)`: the points at the given indices,
out-of-range indices dropped. -/
def selectByIndex (pts : List Point3) (ind : List Nat) : List Point3 :=
  ind.filterMap (fun i => pts.get? i)

/-- `statistical_outlier_removal`, with `op` standing for the index list
`ind` that `pcd.remove_statistical_outlier(nb_neighbors, std_ratio)`
returns. -/
def statistical_outlier_removal (op : Nat → ℚ → List Point3 → List Nat)
    (pc : List Row) (nbNeighbors : Option Nat) (stdRatio : Option ℚ) : List Row :=
  let nb := orDefaultN nbNeighbors 20
  let sr := orDefaultQ stdRatio 2
  let pts := to_open3d_point_cloud pc
  from_open3d_point_cloud (selectByIndex pts (op nb sr pts)) (numCols pc)

/-- `radius_outlier_removal`, with `op` standing for the index list `ind`
that `pcd.remove_radius_outlier(nb_points, radius)` returns. -/
def radius_outlier_removal (op : Nat → ℚ → List Point3 → List Nat)
    (pc : List Row) (nbPoints : Option Nat) (radius : Option ℚ) : List Row :=
  let nb := orDefaultN nbPoints 16
  let rad := orDefaultQ radius (1 / 2)
  let pts := to_open3d_point_cloud pc
  from_open3d_point_cloud (selectByIndex pts (op nb rad pts)) (numCols pc)

/-- `random_sampling`, with `choose n k` standing for
`np.random.choice(n, k, replace=False)`: pass-through when the cloud is
already no larger than the effective sample size, otherwise the rows at
the chosen indices. -/
def random_sampling (choose : Nat → Nat → List Nat)
    (pc : List Row) (numSamples : Option Nat) : List Row :=
  let k := orDefaultN numSamples 2048
  if pc.length ≤ k then pc
  else (choose pc.length k).map (fun i => pc.getD i [])

/-- Squared Euclidean norm of the first three columns of a row. -/
def sqnorm3 (r : Row) : ℚ :=
  r.getD 0 0 * r.getD 0 0 + r.getD 1 0 * r.getD 1 0 + r.getD 2 0 * r.getD 2 0

/-- `distance_clipping`: keep rows whose 3-d norm is at most the
effective max distance. The comparison `norm(r) ≤ md` over the reals is
encoded rationally as `0 ≤ md ∧ sqnorm3 r ≤ md * md`, which agrees with it
for every sign of `md`. -/
def distance_clipping (pc : List Row) (maxDistance : Option ℚ) : List Row :=
  let md := orDefaultQ maxDistance 50
  pc.filter (fun r => decide (0 ≤ md ∧ sqnorm3 r ≤ md * md))

/-! ## Theorems -/

/-- Every row produced by the `.bin` reshape has exactly four entries. -/
theorem chunk4_mem_length : ∀ (fs : List ℚ), ∀ r ∈ chunk4 fs, r.length = 4
  | a :: b :: c :: d :: rest => by
    intro r hr
    rw [chunk4, List.mem_cons] at hr
    rcases hr with h | h
    · subst h; rfl
    · exact chunk4_mem_length rest r h
  | [] => by intro r hr; simp [chunk4] at hr
  | [_] => by intro r hr; simp [chunk4] at hr
  | [_, _] => by intro r hr; simp [chunk4] at hr
  | [_, _, _] => by intro r hr; simp [chunk4] at hr

/-- The shape facts a successful LiDAR read actually guarantees. -/
def lidarBundleShapeOk (fp : String) (b : DataBundle) : Prop :=
  b.data ≠ none ∧ b.columns = some ["X", "Y", "Z"] ∧
  ∀ rows, b.data = some rows →
    (get_file_extension fp ≠ ".bin" → ∀ r ∈ rows, r.length = 3) ∧
    (get_file_extension fp = ".bin" → ∀ r ∈ rows, r.length = 4)

/-- Each data row is as long as the column-label list. -/
def rowsMatchCols (rows : List Row) (cols : List String) : Prop :=
  ∀ r ∈ rows, r.length = cols.length

/-- C1 (corrected): on every successful read, `data` is present; the IMU
codec's stored column labels match its data width; but the LiDAR codec
always returns the fixed labels `['X', 'Y', 'Z']`, which match the data
width on `.pcd`/`.ply`/`.las`/`.laz` (3 columns) and not on `.bin`, where
the data has 4 columns. -/
theorem C1_read_bundle_shape :
    (∀ (fp : String) (content : LidarContent) (b : DataBundle),
        LidarCodec.read fp content = .ok b → lidarBundleShapeOk fp b) ∧
    (∀ (d : Df) (rows : List Row) (cols : List String) (ts : Option (List ℚ)),
        IMUCodec.read d = .ok (rows, cols, ts) → rowsMatchCols rows cols) := by
  constructor
  · intro fp content b h
    cases content with
    | cloud pts =>
      simp only [LidarCodec.read] at h
      split at h
      · exact Except.noConfusion h
      split at h
      case _ hext =>
        injection h with h'
        subst h'
        refine ⟨by simp, rfl, ?_⟩
        intro rows hrows
        simp only [Option.some.injEq] at hrows
        subst hrows
        constructor
        · intro _ r hr
          rcases List.mem_map.mp hr with ⟨p, _, hp⟩
          subst hp; rfl
        · intro hbin
          rcases hext with h1 | h1 | h1 | h1 <;> rw [h1] at hbin <;> simp at hbin
      split at h
      · exact Except.noConfusion h
      · exact Except.noConfusion h
    | raw fs =>
      simp only [LidarCodec.read] at h
      split at h
      · exact Except.noConfusion h
      split at h
      · exact Except.noConfusion h
      split at h
      case _ hbin =>
        split at h
        · injection h with h'
          subst h'
          refine ⟨by simp, rfl, ?_⟩
          intro rows hrows
          simp only [Option.some.injEq] at hrows
          subst hrows
          constructor
          · intro hne; exact absurd hbin hne
          · intro _; exact chunk4_mem_length fs
        · exact Except.noConfusion h
      · exact Except.noConfusion h
  · intro d rows cols ts h
    simp only [IMUCodec.read, dfColumn, dfSelect] at h
    split at h
    · exact Except.noConfusion h
    split at h
    case _ tcol _ _ =>
      split at h
      case _ ts0 sensor0 heq1 heq2 =>
        split at heq2
        case _ =>
          injection heq2 with hsen
          subst hsen
          injection h with h'
          injection h' with hdata h''
          injection h'' with hcols hts
          subst hdata; subst hcols
          intro r hr
          rcases List.mem_map.mp hr with ⟨p, hp, hpr⟩
          subst hpr
          rcases List.of_mem_zip hp with ⟨_, hsen⟩
          rcases List.mem_map.mp hsen with ⟨row0, _, hrow0⟩
          rw [← hrow0]
          simp
        · exact Except.noConfusion heq2
      · exact Except.noConfusion h
      · exact Except.noConfusion h
    case _ =>
      split at h
      case _ sensor0 heq2 =>
        split at heq2
        case _ =>
          injection heq2 with hsen
          subst hsen
          injection h with h'
          injection h' with hdata h''
          injection h'' with hcols hts
          subst hdata; subst hcols
          intro r hr
          rcases List.mem_map.mp hr with ⟨row0, _, hrow0⟩
          rw [← hrow0]
          simp
        · exact Except.noConfusion heq2
      · exact Except.noConfusion h

/-- C1 witness: the theorem applied to a concrete `.pcd` cloud and a
concrete gyroscope table. -/
theorem C1_witness :
    LidarCodec.read "a.pcd" (.cloud [(1, 2, 3)]) =
        .ok ⟨some [[1, 2, 3]], none, some ["X", "Y", "Z"]⟩ ∧
    lidarBundleShapeOk "a.pcd" ⟨some [[1, 2, 3]], none, some ["X", "Y", "Z"]⟩ ∧
    IMUCodec.read ⟨["gyro_x", "gyro_y", "gyro_z"], [[1, 2, 3]]⟩ =
        .ok ([[1, 2, 3]], ["gyro_x", "gyro_y", "gyro_z"], none) ∧
    rowsMatchCols [[1, 2, 3]] ["gyro_x", "gyro_y", "gyro_z"] :=
  ⟨by rfl,
   C1_read_bundle_shape.1 "a.pcd" (.cloud [(1, 2, 3)]) _ (by rfl),
   by rfl,
   C1_read_bundle_shape.2 ⟨["gyro_x", "gyro_y", "gyro_z"], [[1, 2, 3]]⟩ _ _ _ (by rfl)⟩

/-- C1 counterexample: reading a `.bin` file of eight floats succeeds
with a 2-by-4 data array yet the fixed 3-element label list, so the
claimed equality between column-label count and data column count fails
on the LiDAR codec's `.bin` branch. -/
theorem C1_counterexample :
    LidarCodec.read "scan.bin" (.raw [0, 0, 0, 1, 1, 1, 1, 0]) =
        .ok ⟨some [[0, 0, 0, 1], [1, 1, 1, 0]], none, some ["X", "Y", "Z"]⟩ ∧
    (["X", "Y", "Z"] : List String).length = 3 ∧
    ([[(0 : ℚ), 0, 0, 1], [1, 1, 1, 0]].headD []).length = 4 ∧
    (3 : Nat) ≠ 4 := by
  refine ⟨by rfl, by rfl, by rfl, by decide⟩

/-- C3 (code bug): the configured extension lists for dvs, lidar and imu
match the spec's compatibility table, but the rgb read list stores the
bare string without the leading dot as its third entry, so it differs
from the spec row and a `.jpeg` path resolves to no modality at all,
while `.bmp` still resolves to rgb. -/
theorem C3_rgb_extension_table :
    dvsReadExts = [".aedat4", ".txt", ".csv"] ∧
    dvsWriteExts = [".aedat4", ".csv"] ∧
    lidarReadExts = [".pcd", ".ply", ".las", ".laz", ".bin"] ∧
    lidarWriteExts = [".pcd", ".ply", ".las", ".laz", ".bin"] ∧
    imuReadExts = [".csv", ".txt"] ∧
    imuWriteExts = [".csv"] ∧
    rgbWriteExts = [".png", ".jpg"] ∧
    rgbReadExts = [".png", ".jpg", "jpeg", ".bmp"] ∧
    rgbReadExts ≠ SPEC_RGB_READ_EXTS ∧
    resolve_modality_from_extension "img.jpeg" .read = none ∧
    resolve_modality_from_extension "img.bmp" .read = some "rgb" := by
  decide

/-- C4 counterexample: once the facade's import loop has finished, the
registry has no reader and no writer bound for the imu modality. -/
theorem C4_counterexample :
    get_reader moduleInitRegistry "imu" = none ∧
    get_writer moduleInitRegistry "imu" = none := by
  decide

/-- C4 (amended): after module initialization the registry binds readers
and writers for dvs, lidar and rgb only; imu is bound only once an
`IMUCodec` instance is constructed, a registration that happens after
startup and changes the registry state. -/
theorem C4_registry_after_init :
    get_reader moduleInitRegistry "dvs" = some .dvsCodec ∧
    get_writer moduleInitRegistry "dvs" = some .dvsCodec ∧
    get_reader moduleInitRegistry "lidar" = some .lidarCodec ∧
    get_writer moduleInitRegistry "lidar" = some .lidarCodec ∧
    get_reader moduleInitRegistry "rgb" = some .rgbImageCodec ∧
    get_writer moduleInitRegistry "rgb" = some .rgbImageCodec ∧
    get_reader moduleInitRegistry "imu" = none ∧
    get_writer moduleInitRegistry "imu" = none ∧
    get_reader (imuInitRegistration moduleInitRegistry) "imu" = some .imuCodec ∧
    get_writer (imuInitRegistration moduleInitRegistry) "imu" = some .imuCodec ∧
    imuInitRegistration moduleInitRegistry ≠ moduleInitRegistry := by
  decide

/-- C2 (confirmed): when no modality's read list contains the path's
lower-cased suffix, the facade's read fails with the unsupported-format
error; when the resolved modality has no reader in the registry, it fails
with the no-codec error. Both errors are the dispatch result itself, so
no codec is ever selected, hence no format-specific decode is attempted. -/
theorem C2_facade_failfast :
    (∀ (st : IORegistryState) (fp : String),
        (∀ me ∈ SUPPORTED_EXTENSIONS,
            ((opsGet me.2 .read).map strLower).contains (get_file_extension fp) = false) →
        ModalityFacade.readDispatch st fp = .error (.unsupportedFormat fp)) ∧
    (∀ (st : IORegistryState) (fp : String) (m : String),
        resolve_modality_from_extension fp .read = some m →
        get_reader st m = none →
        ModalityFacade.readDispatch st fp = .error (.noCodecRegistered m)) := by
  constructor
  · intro st fp h
    have hres : resolve_modality_from_extension fp .read = none := by
      simp only [resolve_modality_from_extension, Option.map_eq_none']
      rw [List.find?_eq_none]
      intro x hx
      simpa using h x hx
    unfold ModalityFacade.readDispatch
    rw [hres]
  · intro st fp m h1 h2
    simp [ModalityFacade.readDispatch, h1, h2]

/-- C2 witness: the `.xyz` extension is claimed by no modality, and on an
empty registry a `.csv` path resolves to dvs but finds no reader. -/
theorem C2_witness :
    (SUPPORTED_EXTENSIONS.all fun me =>
        !((opsGet me.2 .read).map strLower).contains
          (get_file_extension "/path/file.xyz")) = true ∧
    ModalityFacade.readDispatch emptyRegistry "/path/file.xyz" =
        .error (.unsupportedFormat "/path/file.xyz") ∧
    resolve_modality_from_extension "a.csv" .read = some "dvs" ∧
    get_reader emptyRegistry "dvs" = none ∧
    ModalityFacade.readDispatch emptyRegistry "a.csv" =
        .error (.noCodecRegistered "dvs") :=
  ⟨by decide,
   C2_facade_failfast.1 emptyRegistry "/path/file.xyz" (by decide),
   by decide, by decide,
   C2_facade_failfast.2 emptyRegistry "a.csv" "dvs" (by decide) (by decide)⟩

/-- The data payload a delimited-text DVS read selects: the four required
columns of every body row, addressed by exact label. -/
def dvsTextData (d : Df) : List Row :=
  d.rows.map fun r => ["t", "x", "y", "p"].map fun n => r.getD (d.cols.indexOf n) 0

/-- The timestamp payload a delimited-text DVS read extracts: the `t`
column of every body row. -/
def dvsTextTimes (d : Df) : List ℚ :=
  d.rows.map fun r => r.getD (d.cols.indexOf "t") 0

/-- A label invariant under lowercasing that a header contains exactly is
also contained in the lower-cased header. -/
theorem contains_map_strLower {cols : List String} {n : String}
    (hn : strLower n = n) (h : cols.contains n = true) :
    (cols.map strLower).contains n = true := by
  have hm : n ∈ cols := by simpa using h
  have := List.mem_map_of_mem strLower hm
  rw [hn] at this
  simpa using this

/-- A delimited-text DVS read with all four labels present by exact name
succeeds with the selected data, the `t` column as timestamps, and the
canonical label list. -/
theorem dvs_read_text_exact (fp : String) (d : Df)
    (hext : get_file_extension fp = ".csv" ∨ get_file_extension fp = ".txt")
    (hpres : (["t", "x", "y", "p"].all fun n => d.cols.contains n) = true) :
    DVSCodec.read fp (.table d) =
      .ok ⟨some (dvsTextData d), some (dvsTextTimes d), some ["t", "x", "y", "p"]⟩ := by
  have hval : validate_extension fp dvsReadExts = true := by
    unfold validate_extension
    rcases hext with h | h <;> rw [h] <;> decide
  have hparts := hpres
  simp only [List.all_cons, List.all_nil, Bool.and_eq_true, Bool.and_true] at hparts
  obtain ⟨ht, hx, hy, hp⟩ := hparts
  have hlow : (["t", "x", "y", "p"].all fun n => (d.cols.map strLower).contains n) = true := by
    simp only [List.all_cons, List.all_nil, Bool.and_eq_true, Bool.and_true]
    exact ⟨contains_map_strLower (by decide) ht, contains_map_strLower (by decide) hx,
      contains_map_strLower (by decide) hy, contains_map_strLower (by decide) hp⟩
  have hnn : ¬ ¬ validate_extension fp dvsReadExts = true := fun hc => hc hval
  simp only [DVSCodec.read, dfSelect, dfColumn]
  rw [if_neg hnn, if_pos hext, if_pos hlow, if_pos hpres, if_pos ht]
  rfl

/-- A delimited-text DVS read whose header fails the case-insensitive
presence check for any of the four labels errors out. -/
theorem dvs_read_text_missing (fp : String) (d : Df)
    (hext : get_file_extension fp = ".csv" ∨ get_file_extension fp = ".txt")
    (habs : (["t", "x", "y", "p"].all fun n => (d.cols.map strLower).contains n) = false) :
    DVSCodec.read fp (.table d) = .error "Missing DVS columns: t, x, y, p" := by
  have hval : validate_extension fp dvsReadExts = true := by
    unfold validate_extension
    rcases hext with h | h <;> rw [h] <;> decide
  have hnn : ¬ ¬ validate_extension fp dvsReadExts = true := fun hc => hc hval
  have habs' : ¬ ((["t", "x", "y", "p"].all fun n =>
      (d.cols.map strLower).contains n) = true) := by
    rw [habs]
    exact Bool.false_ne_true
  simp only [DVSCodec.read]
  rw [if_neg hnn, if_pos hext, if_neg habs']

/-- C6 (corrected): a delimited-text DVS read succeeds — with data of
shape `(N, 4)` and columns `['t', 'x', 'y', 'p']` — when the four labels
are present by exact lower-case name, and fails when any of them is
absent even case-insensitively; presence that is merely case-insensitive
is not enough for success (see the counterexample). -/
theorem C6_dvs_text_columns :
    (∀ (fp : String) (d : Df),
        (get_file_extension fp = ".csv" ∨ get_file_extension fp = ".txt") →
        (["t", "x", "y", "p"].all fun n => d.cols.contains n) = true →
        DVSCodec.read fp (.table d) =
          .ok ⟨some (dvsTextData d), some (dvsTextTimes d), some ["t", "x", "y", "p"]⟩ ∧
        rowsMatchCols (dvsTextData d) ["t", "x", "y", "p"] ∧
        (dvsTextData d).length = d.rows.length) ∧
    (∀ (fp : String) (d : Df),
        (get_file_extension fp = ".csv" ∨ get_file_extension fp = ".txt") →
        (["t", "x", "y", "p"].all fun n => (d.cols.map strLower).contains n) = false →
        DVSCodec.read fp (.table d) = .error "Missing DVS columns: t, x, y, p") := by
  constructor
  · intro fp d hext hpres
    refine ⟨dvs_read_text_exact fp d hext hpres, ?_, by simp [dvsTextData]⟩
    intro r hr
    rcases List.mem_map.mp hr with ⟨row0, _, hrow0⟩
    rw [← hrow0]
    rfl
  · exact dvs_read_text_missing

/-- C6 witness: the theorem applied to a well-labelled concrete table and
to a table missing the `p` column. -/
theorem C6_witness :
    DVSCodec.read "ev.csv" (.table ⟨["t", "x", "y", "p"], [[0, 1, 2, 1]]⟩) =
      .ok ⟨some (dvsTextData ⟨["t", "x", "y", "p"], [[0, 1, 2, 1]]⟩),
           some (dvsTextTimes ⟨["t", "x", "y", "p"], [[0, 1, 2, 1]]⟩),
           some ["t", "x", "y", "p"]⟩ ∧
    rowsMatchCols (dvsTextData ⟨["t", "x", "y", "p"], [[0, 1, 2, 1]]⟩) ["t", "x", "y", "p"] ∧
    (dvsTextData ⟨["t", "x", "y", "p"], [[0, 1, 2, 1]]⟩).length = 1 ∧
    DVSCodec.read "ev.csv" (.table ⟨["t", "x", "y"], [[0, 1, 2]]⟩) =
      .error "Missing DVS columns: t, x, y, p" :=
  ⟨(C6_dvs_text_columns.1 "ev.csv" ⟨["t", "x", "y", "p"], [[0, 1, 2, 1]]⟩
      (Or.inl (by decide)) (by decide)).1,
   (C6_dvs_text_columns.1 "ev.csv" ⟨["t", "x", "y", "p"], [[0, 1, 2, 1]]⟩
      (Or.inl (by decide)) (by decide)).2.1,
   (C6_dvs_text_columns.1 "ev.csv" ⟨["t", "x", "y", "p"], [[0, 1, 2, 1]]⟩
      (Or.inl (by decide)) (by decide)).2.2,
   C6_dvs_text_columns.2 "ev.csv" ⟨["t", "x", "y"], [[0, 1, 2]]⟩
      (Or.inl (by decide)) (by decide)⟩

/-- C6 counterexample: a header `T, X, Y, P` contains the four names
case-insensitively — the claim's premise — yet the read fails, because
the selection step addresses the exact lower-case labels. -/
theorem C6_counterexample :
    (["t", "x", "y", "p"].all fun n =>
        (((["T", "X", "Y", "P"] : List String)).map strLower).contains n) = true ∧
    DVSCodec.read "ev.csv" (.table ⟨["T", "X", "Y", "P"], [[1, 2, 3, 1]]⟩) =
      .error "KeyError" :=
  ⟨by decide, by rfl⟩

/-- A four-entry row is recovered from its first four indexed reads. -/
theorem row_eq_of_length_four {r : Row} (h : r.length = 4) :
    [r.getD 0 0, r.getD 1 0, r.getD 2 0, r.getD 3 0] = r := by
  match r, h with
  | [a, b, c, d], _ => rfl

/-- Selecting `t, x, y, p` from a table whose header is exactly
`['t', 'x', 'y', 'p']` returns the body rows unchanged. -/
theorem dvsTextData_canonical (rows : List Row)
    (h : (rows.all fun r => r.length = 4) = true) :
    dvsTextData ⟨["t", "x", "y", "p"], rows⟩ = rows := by
  simp only [dvsTextData]
  calc rows.map (fun r => ["t", "x", "y", "p"].map fun n =>
          r.getD ((["t", "x", "y", "p"] : List String).indexOf n) 0)
      = rows.map id := by
        apply List.map_congr_left
        intro r hr
        have hlen : r.length = 4 := by
          rw [List.all_eq_true] at h
          simpa using h r hr
        exact row_eq_of_length_four hlen
    _ = rows := List.map_id rows

/-- C5 (corrected): the delimited-text DVS round trip holds for bundles
whose columns are the canonical `['t', 'x', 'y', 'p']` — in particular
the spec's concrete `.csv` scenario returns the `(2, 4)` data, matching
values and columns — but write-then-read is not identity for every
supported pair: see the IMU counterexample. -/
theorem C5_roundtrip :
    (∀ (rows : List Row),
        (rows.all fun r => r.length = 4) = true →
        DVSCodec.write ⟨some rows, some ["t", "x", "y", "p"]⟩ "events.csv" =
            .ok (.table ⟨["t", "x", "y", "p"], rows⟩) ∧
        DVSCodec.read "events.csv" (.table ⟨["t", "x", "y", "p"], rows⟩) =
            .ok ⟨some rows, some (rows.map fun r => r.getD 0 0),
                 some ["t", "x", "y", "p"]⟩) ∧
    (DVSCodec.write ⟨some [[0, 1, 2, 1], [1, 3, 4, 0]], some ["t", "x", "y", "p"]⟩
          "events.csv" =
        .ok (.table ⟨["t", "x", "y", "p"], [[0, 1, 2, 1], [1, 3, 4, 0]]⟩) ∧
      DVSCodec.read "events.csv"
          (.table ⟨["t", "x", "y", "p"], [[0, 1, 2, 1], [1, 3, 4, 0]]⟩) =
        .ok ⟨some [[0, 1, 2, 1], [1, 3, 4, 0]], some [0, 1],
             some ["t", "x", "y", "p"]⟩) := by
  have hgen : ∀ (rows : List Row),
      (rows.all fun r => r.length = 4) = true →
      DVSCodec.write ⟨some rows, some ["t", "x", "y", "p"]⟩ "events.csv" =
          .ok (.table ⟨["t", "x", "y", "p"], rows⟩) ∧
      DVSCodec.read "events.csv" (.table ⟨["t", "x", "y", "p"], rows⟩) =
          .ok ⟨some rows, some (rows.map fun r => r.getD 0 0),
               some ["t", "x", "y", "p"]⟩ := by
    intro rows h
    constructor
    · have hnn : ¬ ¬ validate_extension "events.csv" dvsWriteExts = true :=
        fun hc => hc (by decide)
      simp only [DVSCodec.write]
      rw [if_neg hnn, if_neg (fun hc => hc h)]
      rfl
    · have hr := dvs_read_text_exact "events.csv" ⟨["t", "x", "y", "p"], rows⟩
        (Or.inl (by decide)) (by rfl)
      rw [hr, dvsTextData_canonical rows h]
      rfl
  exact ⟨hgen, hgen [[0, 1, 2, 1], [1, 3, 4, 0]] (by decide)⟩

/-- C5 witness: the general round trip applied to the spec scenario's
two event rows. -/
theorem C5_witness :
    ([[(0 : ℚ), 1, 2, 1], [1, 3, 4, 0]].all fun r => r.length = 4) = true ∧
    (DVSCodec.write ⟨some [[0, 1, 2, 1], [1, 3, 4, 0]], some ["t", "x", "y", "p"]⟩
          "events.csv" =
        .ok (.table ⟨["t", "x", "y", "p"], [[0, 1, 2, 1], [1, 3, 4, 0]]⟩) ∧
      DVSCodec.read "events.csv"
          (.table ⟨["t", "x", "y", "p"], [[0, 1, 2, 1], [1, 3, 4, 0]]⟩) =
        .ok ⟨some [[0, 1, 2, 1], [1, 3, 4, 0]],
             some ([[(0 : ℚ), 1, 2, 1], [1, 3, 4, 0]].map fun r => r.getD 0 0),
             some ["t", "x", "y", "p"]⟩) :=
  ⟨by decide, C5_roundtrip.1 [[0, 1, 2, 1], [1, 3, 4, 0]] (by decide)⟩

/-- C5 counterexample: an IMU `.csv` write with no column labels anywhere
generates `col_i` names, and reading the resulting file back fails the
sensor-field discovery outright, so no written data round-trips for that
supported pair. -/
theorem C5_counterexample :
    IMUCodec.write (some [[1, 2, 3]]) none "events.csv" none none =
      .ok ⟨["col_0", "col_1", "col_2"], [[1, 2, 3]]⟩ ∧
    IMUCodec.read ⟨["col_0", "col_1", "col_2"], [[1, 2, 3]]⟩ =
      .error "No valid IMU sensor data found in file." :=
  ⟨by rfl, by rfl⟩

/-- Any path whose lower-cased suffix is `.csv` or `.txt` resolves to
dvs: dvs precedes imu in the table and lists both extensions. -/
theorem resolve_csv_txt_dvs (fp : String)
    (h : get_file_extension fp = ".csv" ∨ get_file_extension fp = ".txt") :
    resolve_modality_from_extension fp .read = some "dvs" := by
  simp only [resolve_modality_from_extension]
  rcases h with h | h <;> simp only [h] <;> decide

/-- No path at all resolves to imu for reading: both imu read
extensions are shadowed by the dvs entry scanned first. -/
theorem resolve_never_imu (fp : String) :
    resolve_modality_from_extension fp .read ≠ some "imu" := by
  intro hcon
  by_cases hcsv : get_file_extension fp = ".csv" ∨ get_file_extension fp = ".txt"
  · rw [resolve_csv_txt_dvs fp hcsv] at hcon
    exact absurd hcon (by decide)
  · simp only [resolve_modality_from_extension, Option.map_eq_some'] at hcon
    rcases hcon with ⟨me, hfind, hfst⟩
    have hp := List.find?_some hfind
    have hmem := List.mem_of_find?_eq_some hfind
    simp only [SUPPORTED_EXTENSIONS, List.mem_cons, List.mem_singleton,
      List.not_mem_nil, or_false] at hmem
    rcases hmem with rfl | rfl | rfl | rfl
    · exact absurd hfst (by decide)
    · exact absurd hfst (by decide)
    · simp only [opsGet] at hp
      rw [show imuReadExts.map strLower = [".csv", ".txt"] from by decide] at hp
      exact hcsv (by simpa using hp)
    · exact absurd hfst (by decide)

/-- C7 (confirmed): extension resolution is a pure first-match scan in
table order, hence deterministic; `.csv` and `.txt` sit in the imu read
list yet always resolve to dvs, which is scanned first — indeed no path
ever resolves to imu. -/
theorem C7_resolution_order :
    (∀ (p q : String), p = q →
        resolve_modality_from_extension p .read =
          resolve_modality_from_extension q .read) ∧
    (".csv" ∈ imuReadExts ∧ ".txt" ∈ imuReadExts) ∧
    (∀ fp : String,
        (get_file_extension fp = ".csv" ∨ get_file_extension fp = ".txt") →
        resolve_modality_from_extension fp .read = some "dvs") ∧
    (∀ fp : String, resolve_modality_from_extension fp .read ≠ some "imu") :=
  ⟨fun _ _ h => by rw [h], by decide, resolve_csv_txt_dvs, resolve_never_imu⟩

/-- C7 witness: resolution of a concrete `.csv` path. -/
theorem C7_witness :
    (get_file_extension "events.csv" = ".csv" ∨
      get_file_extension "events.csv" = ".txt") ∧
    resolve_modality_from_extension "events.csv" .read = some "dvs" ∧
    resolve_modality_from_extension "events.csv" .read ≠ some "imu" :=
  ⟨Or.inl (by decide),
   C7_resolution_order.2.2.1 "events.csv" (Or.inl (by decide)),
   C7_resolution_order.2.2.2 "events.csv"⟩

/-- Column-shape contract for a processed 4-column cloud: every output
row has width 4 and a zero placeholder in the fourth slot. -/
def colShape4 (res : List Row) : Prop :=
  ∀ r ∈ res, r.length = 4 ∧ r.getD 3 0 = 0

/-- Rebuilding rows from points with original width 4 yields the
zero-padded 4-column shape. -/
theorem from_open3d_colShape4 (pts : List Point3) :
    colShape4 (from_open3d_point_cloud pts 4) := by
  intro r hr
  simp only [from_open3d_point_cloud, if_pos rfl] at hr
  rcases List.mem_map.mp hr with ⟨p, _, hp⟩
  rw [← hp]
  exact ⟨rfl, rfl⟩

/-- C8 (confirmed): on a nonempty 4-column input, each of the four
geometric stages — for every behaviour of the wrapped open3d primitive
and every parameter value — returns rows of width 4 whose fourth column
is the zero placeholder. -/
theorem C8_column_preservation :
    ∀ (pc : List Row), pc ≠ [] → (∀ r ∈ pc, r.length = 4) →
      (∀ (vop : ℚ → List Point3 → List Point3) (vs : Option ℚ),
          colShape4 (voxel_downsample vop pc vs)) ∧
      (∀ (uop : Nat → List Point3 → List Point3) (k : Option Nat),
          colShape4 (uniform_downsample uop pc k)) ∧
      (∀ (sop : Nat → ℚ → List Point3 → List Nat) (nb : Option Nat) (sr : Option ℚ),
          colShape4 (statistical_outlier_removal sop pc nb sr)) ∧
      (∀ (rop : Nat → ℚ → List Point3 → List Nat) (nb : Option Nat) (rad : Option ℚ),
          colShape4 (radius_outlier_removal rop pc nb rad)) := by
  intro pc hne hlen
  have hdim : numCols pc = 4 := by
    cases pc with
    | nil => exact absurd rfl hne
    | cons r rest => exact hlen r (List.mem_cons_self r rest)
  refine ⟨fun vop vs => ?_, fun uop k => ?_, fun sop nb sr => ?_, fun rop nb rad => ?_⟩ <;>
    simp only [voxel_downsample, uniform_downsample, statistical_outlier_removal,
      radius_outlier_removal, hdim] <;>
    exact from_open3d_colShape4 _

/-- C8 witness: the theorem applied to a one-point intensity cloud with
simple concrete stand-ins for the open3d primitives. -/
theorem C8_witness :
    ([[(1 : ℚ), 2, 3, 9]] ≠ []) ∧
    colShape4 (voxel_downsample (fun _ pts => pts) [[1, 2, 3, 9]] none) ∧
    colShape4 (uniform_downsample (fun _ pts => pts) [[1, 2, 3, 9]] (some 2)) ∧
    colShape4 (statistical_outlier_removal (fun _ _ _ => [0]) [[1, 2, 3, 9]] none none) ∧
    colShape4 (radius_outlier_removal (fun _ _ _ => [0]) [[1, 2, 3, 9]] none none) :=
  ⟨by decide,
   (C8_column_preservation [[1, 2, 3, 9]] (by decide) (by decide)).1 _ none,
   (C8_column_preservation [[1, 2, 3, 9]] (by decide) (by decide)).2.1 _ (some 2),
   (C8_column_preservation [[1, 2, 3, 9]] (by decide) (by decide)).2.2.1 _ none none,
   (C8_column_preservation [[1, 2, 3, 9]] (by decide) (by decide)).2.2.2 _ none none⟩

/-- A concrete index chooser: the first k indices, one instance of what
`np.random.choice(n, k, replace=False)` may return. -/
def rangeChoose : Nat → Nat → List Nat := fun _ k => List.range k

/-- C9 counterexample: with the requested sample count 0, a one-row
cloud is returned whole — one row, which is more than the zero rows the
claim's bound allows at that requested count (0 is falsy, so the
effective target silently becomes the default 2048). -/
theorem C9_counterexample :
    random_sampling rangeChoose [[1, 2, 3]] (some 0) = [[1, 2, 3]] ∧
    (random_sampling rangeChoose [[(1 : ℚ), 2, 3]] (some 0)).length = 1 ∧
    ¬ ((1 : Nat) ≤ 0) :=
  ⟨by rfl, by rfl, by decide⟩

/-- C9 (amended): for every positive requested count k (and any chooser
returning k indices), random sampling returns at most k rows, and is the
identity when the cloud has at most k rows; a requested count of 0 is
falsy and is replaced by the default 2048, so the bound does not apply
there. -/
theorem C9_random_sampling_bound :
    ∀ (choose : Nat → Nat → List Nat) (pc : List Row) (k : Nat),
      0 < k → (choose pc.length k).length = k →
      ((random_sampling choose pc (some k)).length ≤ k ∧
       (pc.length ≤ k → random_sampling choose pc (some k) = pc)) := by
  intro choose pc k hk hch
  have heff : orDefaultN (some k) 2048 = k := by
    simp only [orDefaultN]
    rw [if_neg (Nat.pos_iff_ne_zero.mp hk)]
  constructor
  · simp only [random_sampling, heff]
    by_cases hle : pc.length ≤ k
    · rw [if_pos hle]; exact hle
    · rw [if_neg hle, List.length_map, hch]
  · intro hle
    simp only [random_sampling, heff]
    rw [if_pos hle]

/-- C9 witness: the spec scenario — a 50-row cloud sampled with target
100 stays within the bound and is returned unchanged. -/
theorem C9_witness :
    0 < 100 ∧
    (rangeChoose (List.replicate 50 ([1, 2, 3] : Row)).length 100).length = 100 ∧
    (random_sampling rangeChoose (List.replicate 50 ([1, 2, 3] : Row))
        (some 100)).length ≤ 100 ∧
    ((List.replicate 50 ([1, 2, 3] : Row)).length ≤ 100 →
      random_sampling rangeChoose (List.replicate 50 ([1, 2, 3] : Row)) (some 100) =
        List.replicate 50 [1, 2, 3]) :=
  ⟨by decide, by simp [rangeChoose],
   (C9_random_sampling_bound rangeChoose (List.replicate 50 [1, 2, 3]) 100
      (by decide) (by simp [rangeChoose])).1,
   (C9_random_sampling_bound rangeChoose (List.replicate 50 [1, 2, 3]) 100
      (by decide) (by simp [rangeChoose])).2⟩

/-- C10 (confirmed): a falsy optional parameter selects the configured
default — distance clipping called with 0 behaves exactly like the
default call, clipping at 50 (a norm-5 point survives rather than only
zero-norm points), and random sampling called with 0 behaves exactly
like the default call targeting 2048 (a small cloud passes through
rather than becoming empty). -/
theorem C10_falsy_defaults :
    (∀ pc : List Row, distance_clipping pc (some 0) = distance_clipping pc none) ∧
    (∀ pc : List Row, distance_clipping pc none =
        pc.filter fun r => decide (0 ≤ (50 : ℚ) ∧ sqnorm3 r ≤ 50 * 50)) ∧
    distance_clipping [[3, 4, 0]] (some 0) = [[3, 4, 0]] ∧
    (∀ (choose : Nat → Nat → List Nat) (pc : List Row),
        random_sampling choose pc (some 0) = random_sampling choose pc none) ∧
    random_sampling rangeChoose [[5, 5, 5]] (some 0) = [[5, 5, 5]] ∧
    orDefaultQ (some 0) 50 = 50 ∧
    orDefaultN (some 0) 2048 = 2048 :=
  ⟨fun _ => rfl, fun _ => rfl, by norm_num [distance_clipping, orDefaultQ, sqnorm3],
   fun _ _ => rfl, by rfl, rfl, rfl⟩

end SynapSense
